import Mathlib

/-!
Verification of the PRS/MDMS reconciliation core
(src/prsMdms/backend/services/prsMdms.js and its controller
src/prsMdms/backend/controllers/prsMdmsController.js).

The services are thin JavaScript wrappers around PostgreSQL queries over the
two relations `prs` and `mdms` (schema in the repository DDL:
prs(serial_no INT, coach_code TEXT, composite_flag BOOLEAN, class TEXT,
berth_number INT, berth_type TEXT) and
mdms(serial_no INT, layout_variant_no TEXT, composite_flag BOOLEAN,
coach_class_first TEXT, coach_class_second TEXT, prs_coach_code TEXT,
coach_class TEXT, berth_no INT, berth_qualifier TEXT)).
The embedding models each SQL query as a pure function over in-memory lists
of rows, with PostgreSQL semantics:

* `TRIM(LOWER(x))` is modelled by `normTL` (ASCII case fold, then stripping
  leading/trailing space characters, which is what SQL `TRIM` removes).
* `berth_number` is an INT column (nullable), so `p.berth_number::INT` in
  the join conditions is an identity cast that can never raise; ingestion
  converts the spreadsheet cell with `Number(...)` and stores SQL NULL for
  a malformed value (`ingestBerthNumber` models that conversion).  A NULL
  berth is `none`; a NULL on either side of the integer join comparison is
  SQL UNKNOWN, so the row matches nothing.  The query functions keep the
  service's failure channel (`Except Unit`, the rethrown database error),
  but no modelled statement produces it.
* queries without an ORDER BY are given the deterministic nested-loop order
  (outer relation in input order, inner relation in input order); ORDER BY
  clauses are modelled with a stable insertion sort under byte order on strings
  (the "C" collation) with NULLS LAST.
* JavaScript float arithmetic on the aggregate side is modelled over `ℚ`
  with `Option`: `none` stands for a non-finite result (`NaN`, from `0/0`,
  is the only one reached by the code on the inputs considered here).  All
  finite values produced along the modelled paths are also exact IEEE
  doubles, so the model agrees with the JavaScript semantics there.

Text fields are modelled as non-NULL strings (ingestion validates and trims
them before insert); the free-text `details` strings of the result objects
are not modelled, no property depends on them.
-/

/-! ## String primitives with PostgreSQL semantics -/

/-- ASCII lower-casing of one character, as SQL `LOWER` does for ASCII. -/
def lowerChar (c : Char) : Char :=
  if c.val ≥ 65 ∧ c.val ≤ 90 then Char.ofNat (c.toNat + 32) else c

/-- SQL `LOWER`: lower-case every character. -/
def lowerStr (s : String) : String := ⟨s.data.map lowerChar⟩

/-- SQL `TRIM`: strip leading and trailing space characters (only spaces). -/
def sqlTrim (s : String) : String :=
  ⟨((s.data.dropWhile (· == ' ')).reverse.dropWhile (· == ' ')).reverse⟩

/-- The join-key normalisation used by every query: `TRIM(LOWER(x))`. -/
def normTL (s : String) : String := sqlTrim (lowerStr s)

/-- Digits of a PostgreSQL integer literal to a natural number, if all
characters are decimal digits (and there is at least one). -/
def digitsToNat (cs : List Char) : Option Nat :=
  if !cs.isEmpty && cs.all Char.isDigit then
    some (cs.foldl (fun acc c => acc * 10 + (c.toNat - 48)) 0)
  else none

/-- Integer value of a spreadsheet cell, as JavaScript `Number(...)` reads
the integer-formatted berth cells: optional surrounding spaces, optional
sign, decimal digits; any non-numeric text yields `none` (NaN). -/
def parseIntegerText (s : String) : Option Int :=
  match (sqlTrim s).data with
  | '-' :: cs => (digitsToNat cs).map (fun n => -(n : Int))
  | '+' :: cs => (digitsToNat cs).map (fun n => (n : Int))
  | cs => (digitsToNat cs).map (fun n => (n : Int))

/-- The berth-number conversion ingestion applies before the INSERT:
`berthNumber && !isNaN(Number(berthNumber)) ? Number(berthNumber) : null`
(prsMdmsExcelProcessor.js).  A missing cell, an empty cell (falsy) or
non-numeric text all become SQL NULL; nothing else ever reaches the INT
column. -/
def ingestBerthNumber : Option String → Option Int
  | none => none
  | some s => if s = "" then none else parseIntegerText s

/-- Byte-order strict comparison on strings (PostgreSQL "C" collation). -/
def charListLtB : List Char → List Char → Bool
  | [], [] => false
  | [], _ :: _ => true
  | _ :: _, [] => false
  | a :: as, b :: bs =>
      if a.val < b.val then true
      else if b.val < a.val then false
      else charListLtB as bs

/-- Byte-order strict comparison lifted to strings. -/
def strLtB (a b : String) : Bool := charListLtB a.data b.data

/-! ## Data model: the two relations -/

/-- One row of the `prs` table. `berth_number` is an integer column;
`none` is a SQL NULL (what ingestion stores for a malformed berth cell). -/
structure PrsRow where
  serial_no : Int
  coach_code : String
  composite_flag : Bool
  classCode : String
  berth_number : Option Int
  berth_type : String
deriving DecidableEq, Repr

/-- One row of the `mdms` table. `berth_no` is an integer column; `none` is a
SQL NULL. -/
structure MdmsRow where
  serial_no : Int
  layout_variant_no : String
  composite_flag : Bool
  coach_class_first : String
  coach_class_second : String
  prs_coach_code : String
  coach_class : String
  berth_no : Option Int
  berth_qualifier : String
deriving DecidableEq, Repr

/-- The database state the queries run against. -/
structure DB where
  prs : List PrsRow
  mdms : List MdmsRow
deriving DecidableEq, Repr

/-! ## The join predicate shared by all cross-table queries -/

/-- The join condition used by every PRS-to-MDMS query:
`TRIM(LOWER(p.coach_code)) = TRIM(LOWER(m.prs_coach_code)) AND
 TRIM(LOWER(p.class)) = TRIM(LOWER(m.coach_class)) AND
 p.berth_number::INT = m.berth_no` (the cast is an identity on the INT
column).  A NULL on either side of the integer comparison yields SQL
UNKNOWN, which a join treats as no match. -/
def rowMatches (p : PrsRow) (m : MdmsRow) : Bool :=
  (normTL p.coach_code == normTL m.prs_coach_code) &&
  (normTL p.classCode == normTL m.coach_class) &&
  (match p.berth_number, m.berth_no with
   | some a, some b => a == b
   | _, _ => false)

/-! ## JavaScript number model for the aggregate computations -/

/-- A JavaScript number: `some q` is the finite value `q`, `none` a
non-finite result.  Along the code paths modelled here the only non-finite
value that can arise is `NaN`, from `0/0`. -/
def JsNum := Option ℚ
deriving DecidableEq, Repr

/-- Finite JavaScript number from a rational. -/
def jfin (q : ℚ) : JsNum := some q

/-- JavaScript division. Division by zero never yields a finite value
(`0/0` is `NaN`; the other cases, infinities, are unreachable in the code
paths modelled here and are also collapsed to `none`). -/
def jdiv : JsNum → JsNum → JsNum
  | some a, some b => if b = 0 then none else some (a / b)
  | _, _ => none

/-- JavaScript multiplication (NaN-propagating). -/
def jmul : JsNum → JsNum → JsNum
  | some a, some b => some (a * b)
  | _, _ => none

/-- JavaScript `Math.round`: half-up rounding, `NaN` maps to `NaN`. -/
def jround : JsNum → JsNum
  | some q => some (((q + 1/2).floor : Int) : ℚ)
  | none => none

/-! ## The dynamic value stored in the discrepancy rows -/

/-- A dynamically typed JavaScript field value (the result objects are
plain JavaScript records; the berth-number fields the queries return are
integers or `null` for SQL NULL). -/
inductive JsVal where
  | str (s : String)
  | int (n : Int)
  | null
deriving DecidableEq, Repr

/-- A nullable integer value as a JavaScript field. -/
def jsOfInt : Option Int → JsVal
  | none => .null
  | some n => .int n

/-! ## DiscrepancyService.findDiscrepancies -/

/-- One element of the `discrepancies` array built by `findDiscrepancies`.
Fields a branch does not set are `none` (JavaScript `undefined`); the
free-text `details` field is not modelled. -/
structure Disc where
  serialNo : Int
  coachCode : String
  prsClass : Option String
  mdmsClass : Option String
  berthNumber : JsVal
  berthType : String
  berthQualifier : String
  discrepancyType : String
deriving DecidableEq, Repr

/-- Row pushed for a result of the type-mismatch query. -/
def mkTypeMismatch (p : PrsRow) (m : MdmsRow) : Disc :=
  { serialNo := p.serial_no
    coachCode := p.coach_code
    prsClass := some p.classCode
    mdmsClass := some m.coach_class
    berthNumber := jsOfInt p.berth_number
    berthType := p.berth_type
    berthQualifier := m.berth_qualifier
    discrepancyType := "TYPE_MISMATCH" }

/-- Row pushed for a result of the missing-in-MDMS query. -/
def mkMissingInMdms (p : PrsRow) : Disc :=
  { serialNo := p.serial_no
    coachCode := p.coach_code
    prsClass := some p.classCode
    mdmsClass := none
    berthNumber := jsOfInt p.berth_number
    berthType := p.berth_type
    berthQualifier := "N/A"
    discrepancyType := "MISSING_IN_MDMS" }

/-- Row pushed for a result of the missing-in-PRS query. -/
def mkMissingInPrs (m : MdmsRow) : Disc :=
  { serialNo := m.serial_no
    coachCode := m.prs_coach_code
    prsClass := none
    mdmsClass := some m.coach_class
    berthNumber := jsOfInt m.berth_no
    berthType := "N/A"
    berthQualifier := m.berth_qualifier
    discrepancyType := "MISSING_IN_PRS" }

/-- Result rows of the type-mismatch query: inner join of `prs` and `mdms`
on the normalised key, keeping pairs whose raw `berth_type` and
`berth_qualifier` differ.  The query has no ORDER BY; rows appear in
nested-loop order. -/
def typeMismatchRowsOf (prs : List PrsRow) (mdms : List MdmsRow) :
    List Disc :=
  prs.flatMap (fun p =>
    (mdms.filter (fun m =>
      rowMatches p m && !(p.berth_type == m.berth_qualifier))).map
        (mkTypeMismatch p))

/-- Result rows of the missing-in-MDMS query: left join of `prs` to `mdms`,
keeping PRS rows with no join partner (`m.serial_no IS NULL`; `serial_no`
is never NULL in ingested data). -/
def missingInMdmsRowsOf (prs : List PrsRow) (mdms : List MdmsRow) :
    List Disc :=
  (prs.filter (fun p => !(mdms.any (fun m => rowMatches p m)))).map
    mkMissingInMdms

/-- Result rows of the missing-in-PRS query: left join of `mdms` to `prs`,
keeping MDMS rows with no join partner.  Its join condition is the mirror
image of `rowMatches`, which is the same predicate. -/
def missingInPrsRowsOf (prs : List PrsRow) (mdms : List MdmsRow) :
    List Disc :=
  (mdms.filter (fun m => !(prs.any (fun p => rowMatches p m)))).map
    mkMissingInPrs

/-- Query 1 (`typeMismatchQuery`).  The `Except` channel is the service's
rethrown database error; no modelled statement produces it. -/
def typeMismatchQuery (prs : List PrsRow) (mdms : List MdmsRow) :
    Except Unit (List Disc) :=
  .ok (typeMismatchRowsOf prs mdms)

/-- Query 2 (`missingInMdmsQuery`). -/
def missingInMdmsQuery (prs : List PrsRow) (mdms : List MdmsRow) :
    Except Unit (List Disc) :=
  .ok (missingInMdmsRowsOf prs mdms)

/-- Query 3 (`missingInPrsQuery`). -/
def missingInPrsQuery (prs : List PrsRow) (mdms : List MdmsRow) :
    Except Unit (List Disc) :=
  .ok (missingInPrsRowsOf prs mdms)

/-- The value returned by `findDiscrepancies`: the three partitions (the
service concatenates them into one `discrepancies` array and also returns
their lengths as counts; both are derived below). -/
structure DiscResult where
  typeMismatchRows : List Disc
  missingInMdmsRows : List Disc
  missingInPrsRows : List Disc
deriving DecidableEq, Repr

/-- The `discrepancies` array: the three partitions pushed in query order. -/
def DiscResult.discrepancies (r : DiscResult) : List Disc :=
  r.typeMismatchRows ++ r.missingInMdmsRows ++ r.missingInPrsRows

/-- The `typeMismatchCount` field. -/
def DiscResult.typeMismatchCount (r : DiscResult) : Nat :=
  r.typeMismatchRows.length

/-- The `missingInMdmsCount` field. -/
def DiscResult.missingInMdmsCount (r : DiscResult) : Nat :=
  r.missingInMdmsRows.length

/-- The `missingInPrsCount` field. -/
def DiscResult.missingInPrsCount (r : DiscResult) : Nat :=
  r.missingInPrsRows.length

/-- The `totalDiscrepancies` field (`discrepancies.length`). -/
def DiscResult.totalDiscrepancies (r : DiscResult) : Nat :=
  r.discrepancies.length

/-- `DiscrepancyService.findDiscrepancies`: run the three queries in order;
a database error would be rethrown by the catch block (none arises in the
model). -/
def findDiscrepancies (prs : List PrsRow) (mdms : List MdmsRow) :
    Except Unit DiscResult := do
  let tm ← typeMismatchQuery prs mdms
  let mm ← missingInMdmsQuery prs mdms
  let mp ← missingInPrsQuery prs mdms
  pure ⟨tm, mm, mp⟩

/-- `DiscrepancyService.getDiscrepanciesByType`: recompute everything, then
filter the merged array by strict equality on `discrepancyType`. -/
def getDiscrepanciesByTypeSvc (prs : List PrsRow) (mdms : List MdmsRow)
    (ty : String) : Except Unit (List Disc) :=
  (findDiscrepancies prs mdms).map
    (fun r => r.discrepancies.filter (fun d => d.discrepancyType == ty))

/-- `DiscrepancyService.getDiscrepanciesForCoachCode`: recompute everything,
then filter the merged array by strict (`===`) equality on `coachCode`. -/
def getDiscrepanciesForCoachCodeSvc (prs : List PrsRow) (mdms : List MdmsRow)
    (coachCode : String) : Except Unit (List Disc) :=
  (findDiscrepancies prs mdms).map
    (fun r => r.discrepancies.filter (fun d => d.coachCode == coachCode))

/-! ## DiscrepancyService.getDetailedSummary -/

/-- The `overview` object of the detailed summary. -/
structure SummaryOverview where
  totalPrsRecords : Nat
  totalMdmsRecords : Nat
  totalDiscrepancies : Nat
  dataQualityScore : JsNum
deriving DecidableEq, Repr

/-- The `discrepancyBreakdown` object of the detailed summary. -/
structure SummaryBreakdown where
  typeMismatchCount : Nat
  missingInPrsCount : Nat
  missingInMdmsCount : Nat
  typeMismatchPercentage : JsNum
  missingInPrsPercentage : JsNum
  missingInMdmsPercentage : JsNum
deriving DecidableEq, Repr

/-- The value returned by `getDetailedSummary`. -/
structure DetailedSummary where
  overview : SummaryOverview
  discrepancyBreakdown : SummaryBreakdown
deriving DecidableEq, Repr

/-- The per-kind percentage: `Math.round((count / total) * 10000) / 100`. -/
def pctOf (count total : Nat) : JsNum :=
  jdiv (jround (jmul (jdiv (jfin count) (jfin total)) (jfin 10000)))
    (jfin 100)

/-- `DiscrepancyService.getDetailedSummary`: recompute the discrepancies,
count both tables, and derive the quality score
`Math.round(((max(P,M) - total) / max(P,M) * 100) * 100) / 100` and the three
per-kind percentages. -/
def getDetailedSummary (prs : List PrsRow) (mdms : List MdmsRow) :
    Except Unit DetailedSummary :=
  (findDiscrepancies prs mdms).map (fun r =>
    let totalPrsRecords := prs.length
    let totalMdmsRecords := mdms.length
    let totalPossibleMatches := max totalPrsRecords totalMdmsRecords
    let matchingRecords : ℚ :=
      (totalPossibleMatches : ℚ) - (r.totalDiscrepancies : ℚ)
    let dataQualityScore :=
      jmul (jdiv (jfin matchingRecords) (jfin totalPossibleMatches))
        (jfin 100)
    { overview :=
      { totalPrsRecords := totalPrsRecords
        totalMdmsRecords := totalMdmsRecords
        totalDiscrepancies := r.totalDiscrepancies
        dataQualityScore :=
          jdiv (jround (jmul dataQualityScore (jfin 100))) (jfin 100) }
      discrepancyBreakdown :=
      { typeMismatchCount := r.typeMismatchCount
        missingInPrsCount := r.missingInPrsCount
        missingInMdmsCount := r.missingInMdmsCount
        typeMismatchPercentage :=
          pctOf r.typeMismatchCount r.totalDiscrepancies
        missingInPrsPercentage :=
          pctOf r.missingInPrsCount r.totalDiscrepancies
        missingInMdmsPercentage :=
          pctOf r.missingInMdmsCount r.totalDiscrepancies } })

/-! ## DuplicateService.findDuplicates -/

/-- Grouping key of the within-PRS duplicate query:
`GROUP BY coach_code, class, berth_number, berth_type` on the raw column
values (SQL grouping treats NULLs as equal). -/
def prsKey (r : PrsRow) : String × String × Option Int × String :=
  (r.coach_code, r.classCode, r.berth_number, r.berth_type)

/-- Grouping key of the within-MDMS duplicate query:
`GROUP BY prs_coach_code, layout_variant_no, berth_no, berth_qualifier`. -/
def mdmsKey (m : MdmsRow) : String × String × Option Int × String :=
  (m.prs_coach_code, m.layout_variant_no, m.berth_no, m.berth_qualifier)

/-- Ascending integer sort used for `ARRAY_AGG(serial_no ORDER BY serial_no)`. -/
def sortSerials (l : List Int) : List Int :=
  l.insertionSort (· ≤ ·)

/-- Ascending order on nullable integers, NULLS LAST (PostgreSQL default
for ASC). -/
def optIntLeB : Option Int → Option Int → Bool
  | none, none => true
  | some _, none => true
  | none, some _ => false
  | some a, some b => decide (a ≤ b)

/-- One row of the within-PRS duplicate query result. -/
structure PrsDupGroup where
  coachCode : String
  classCode : String
  berthNumber : Option Int
  berthType : String
  duplicateCount : Nat
  serialNumbers : List Int
deriving DecidableEq, Repr

/-- One row of the within-MDMS duplicate query result. -/
structure MdmsDupGroup where
  coachCode : String
  layoutVariantNo : String
  berthNumber : Option Int
  berthQualifier : String
  duplicateCount : Nat
  serialNumbers : List Int
deriving DecidableEq, Repr

/-- One row of the cross-table duplicate query result. -/
structure CrossDupGroup where
  coachCode : String
  classCode : String
  berthNumber : Option Int
  berthType : String
  berthQualifier : String
  prsCount : Nat
  mdmsCount : Nat
  prsSerialNumbers : List Int
  mdmsSerialNumbers : List Int
deriving DecidableEq, Repr

/-- The `ORDER BY coach_code, berth_number` of the within-PRS query. -/
def prsGroupLeB (g h : PrsDupGroup) : Bool :=
  strLtB g.coachCode h.coachCode ||
    (g.coachCode == h.coachCode && optIntLeB g.berthNumber h.berthNumber)

/-- The `ORDER BY prs_coach_code, berth_no` of the within-MDMS query. -/
def mdmsGroupLeB (g h : MdmsDupGroup) : Bool :=
  strLtB g.coachCode h.coachCode ||
    (g.coachCode == h.coachCode && optIntLeB g.berthNumber h.berthNumber)

/-- The `ORDER BY (COUNT(p.serial_no) + COUNT(m.serial_no)) DESC` of the
cross-table query. -/
def crossGroupLeB (g h : CrossDupGroup) : Bool :=
  decide (h.prsCount + h.mdmsCount ≤ g.prsCount + g.mdmsCount)

/-- Within-PRS duplicate query: group the raw rows by `prsKey`, keep groups
with more than one member (`HAVING COUNT(*) > 1`), aggregate the member
serial numbers ascending, and order groups by coach code then berth
number. -/
def prsDuplicatesQuery (prs : List PrsRow) : List PrsDupGroup :=
  (((prs.map prsKey).dedup).filterMap (fun k =>
    let ms := prs.filter (fun r => prsKey r == k)
    if 1 < ms.length then
      some { coachCode := k.1
             classCode := k.2.1
             berthNumber := k.2.2.1
             berthType := k.2.2.2
             duplicateCount := ms.length
             serialNumbers := sortSerials (ms.map PrsRow.serial_no) }
    else none)).insertionSort (fun g h => prsGroupLeB g h = true)

/-- Within-MDMS duplicate query, analogous over `mdmsKey`. -/
def mdmsDuplicatesQuery (mdms : List MdmsRow) : List MdmsDupGroup :=
  (((mdms.map mdmsKey).dedup).filterMap (fun k =>
    let ms := mdms.filter (fun m => mdmsKey m == k)
    if 1 < ms.length then
      some { coachCode := k.1
             layoutVariantNo := k.2.1
             berthNumber := k.2.2.1
             berthQualifier := k.2.2.2
             duplicateCount := ms.length
             serialNumbers := sortSerials (ms.map MdmsRow.serial_no) }
    else none)).insertionSort (fun g h => mdmsGroupLeB g h = true)

/-- The joined pair sequence of the cross-table query (inner join on
`rowMatches`, nested-loop order). -/
def crossPairs (prs : List PrsRow) (mdms : List MdmsRow) :
    List (PrsRow × MdmsRow) :=
  prs.flatMap (fun p => (mdms.filter (fun m => rowMatches p m)).map (p, ·))

/-- Grouping key of the cross-table query:
`GROUP BY p.coach_code, p.class, p.berth_number, p.berth_type,
m.berth_qualifier` over the joined pairs. -/
def crossKey (pr : PrsRow × MdmsRow) :
    String × String × Option Int × String × String :=
  (pr.1.coach_code, pr.1.classCode, pr.1.berth_number, pr.1.berth_type,
   pr.2.berth_qualifier)

/-- Cross-table duplicate query: join, group the pairs by `crossKey`, keep
groups with `COUNT(p.serial_no) > 1 OR COUNT(m.serial_no) > 1` (both counts
are the number of joined pairs in the group, `serial_no` being non-NULL in
ingested data), aggregate each side's distinct serial numbers ascending, and
order by total count descending. -/
def crossGroupsOf (prs : List PrsRow) (mdms : List MdmsRow) :
    List CrossDupGroup :=
  (((crossPairs prs mdms).map crossKey).dedup.filterMap (fun k =>
    let grp := (crossPairs prs mdms).filter (fun pr => crossKey pr == k)
    let prsCount := (grp.map (fun pr => pr.1.serial_no)).length
    let mdmsCount := (grp.map (fun pr => pr.2.serial_no)).length
    if 1 < prsCount ∨ 1 < mdmsCount then
      some { coachCode := k.1
             classCode := k.2.1
             berthNumber := k.2.2.1
             berthType := k.2.2.2.1
             berthQualifier := k.2.2.2.2
             prsCount := prsCount
             mdmsCount := mdmsCount
             prsSerialNumbers := sortSerials ((grp.map (fun pr => pr.1.serial_no)).dedup)
             mdmsSerialNumbers := sortSerials ((grp.map (fun pr => pr.2.serial_no)).dedup) }
    else none)).insertionSort (fun g h => crossGroupLeB g h = true)

/-- The cross-table duplicate query (same identity cast in the join; only
the service's failure channel is kept). -/
def crossTableQuery (prs : List PrsRow) (mdms : List MdmsRow) :
    Except Unit (List CrossDupGroup) :=
  .ok (crossGroupsOf prs mdms)

/-- The value returned by `findDuplicates` (the `duplicates` object; the
`summary` counts are derived below). -/
structure DupResult where
  prs : List PrsDupGroup
  mdms : List MdmsDupGroup
  crossTable : List CrossDupGroup
deriving DecidableEq, Repr

/-- The `summary.totalDuplicateGroups` field. -/
def DupResult.totalDuplicateGroups (r : DupResult) : Nat :=
  r.prs.length + r.mdms.length + r.crossTable.length

/-- The `summary.totalDuplicateRecords` field: within-table groups
contribute their `duplicateCount`, cross-table groups `prsCount +
mdmsCount`. -/
def DupResult.totalDuplicateRecords (r : DupResult) : Nat :=
  (r.prs.map PrsDupGroup.duplicateCount).sum +
  (r.mdms.map MdmsDupGroup.duplicateCount).sum +
  (r.crossTable.map (fun g => g.prsCount + g.mdmsCount)).sum

/-- `DuplicateService.findDuplicates`: run the three duplicate queries. -/
def findDuplicates (prs : List PrsRow) (mdms : List MdmsRow) :
    Except Unit DupResult := do
  let cross ← crossTableQuery prs mdms
  pure { prs := prsDuplicatesQuery prs
         mdms := mdmsDuplicatesQuery mdms
         crossTable := cross }

/-- `DuplicateService.getDuplicatesForCoachCode`: recompute, then filter each
of the three group lists by strict (`===`) equality on `coachCode`. -/
def getDuplicatesForCoachCodeSvc (prs : List PrsRow) (mdms : List MdmsRow)
    (coachCode : String) :
    Except Unit (List PrsDupGroup × List MdmsDupGroup × List CrossDupGroup) :=
  (findDuplicates prs mdms).map (fun r =>
    (r.prs.filter (fun g => g.coachCode == coachCode),
     r.mdms.filter (fun g => g.coachCode == coachCode),
     r.crossTable.filter (fun g => g.coachCode == coachCode)))

/-! ## DuplicateService.getDetailedDuplicateSummary -/

/-- The `overview` object of the detailed duplicate summary. -/
structure DupOverview where
  totalPrsRecords : Nat
  totalMdmsRecords : Nat
  totalDuplicateGroups : Nat
  totalDuplicateRecords : Nat
  dataIntegrityScore : JsNum
deriving DecidableEq, Repr

/-- The `duplicateBreakdown` object of the detailed duplicate summary. -/
structure DupBreakdown where
  prsInternalDuplicates : Nat
  mdmsInternalDuplicates : Nat
  crossTableDuplicates : Nat
  prsDuplicateImpact : Nat
  mdmsDuplicateImpact : Nat
  prsImpactPercentage : JsNum
  mdmsImpactPercentage : JsNum
deriving DecidableEq, Repr

/-- The value returned by `getDetailedDuplicateSummary`. -/
structure DetailedDupSummary where
  overview : DupOverview
  duplicateBreakdown : DupBreakdown
deriving DecidableEq, Repr

/-- `DuplicateService.getDetailedDuplicateSummary`: recompute the duplicates,
count both tables, and derive
`Math.round(((P + M - totalDuplicateRecords) / (P + M)) * 10000) / 100`
and the two impact percentages. -/
def getDetailedDuplicateSummary (prs : List PrsRow) (mdms : List MdmsRow) :
    Except Unit DetailedDupSummary :=
  (findDuplicates prs mdms).map (fun r =>
    let totalPrsRecords := prs.length
    let totalMdmsRecords := mdms.length
    let prsDuplicateImpact := (r.prs.map PrsDupGroup.duplicateCount).sum
    let mdmsDuplicateImpact := (r.mdms.map MdmsDupGroup.duplicateCount).sum
    { overview :=
      { totalPrsRecords := totalPrsRecords
        totalMdmsRecords := totalMdmsRecords
        totalDuplicateGroups := r.totalDuplicateGroups
        totalDuplicateRecords := r.totalDuplicateRecords
        dataIntegrityScore :=
          jdiv (jround (jmul (jdiv
            (jfin ((totalPrsRecords : ℚ) + (totalMdmsRecords : ℚ)
              - (r.totalDuplicateRecords : ℚ)))
            (jfin ((totalPrsRecords : ℚ) + (totalMdmsRecords : ℚ))))
            (jfin 10000))) (jfin 100) }
      duplicateBreakdown :=
      { prsInternalDuplicates := r.prs.length
        mdmsInternalDuplicates := r.mdms.length
        crossTableDuplicates := r.crossTable.length
        prsDuplicateImpact := prsDuplicateImpact
        mdmsDuplicateImpact := mdmsDuplicateImpact
        prsImpactPercentage := pctOf prsDuplicateImpact totalPrsRecords
        mdmsImpactPercentage := pctOf mdmsDuplicateImpact totalMdmsRecords } })

/-! ## getDuplicatesByType and the HTTP controllers

For the fail-fast property the model tracks which SQL statements a call
issues: every service entry point returns its result together with the list
of queries it ran, in order. -/

/-- Identifier of one of the six SQL statements the two services issue. -/
inductive QueryId where
  | typeMismatchQ
  | missingInMdmsQ
  | missingInPrsQ
  | prsDuplicatesQ
  | mdmsDuplicatesQ
  | crossTableQ
deriving DecidableEq, Repr

/-- Error outcome of a service call: a rethrown query failure, or the
`Invalid duplicate type` error thrown by the switch default. -/
inductive SvcError where
  | queryFailure
  | invalidTypeError
deriving DecidableEq, Repr

/-- Result payload of `getDuplicatesByType` (the three branches of the
switch return lists of different shapes). -/
inductive DupByTypeOut where
  | prsGroups (gs : List PrsDupGroup)
  | mdmsGroups (gs : List MdmsDupGroup)
  | crossGroups (gs : List CrossDupGroup)
deriving DecidableEq, Repr

/-- `findDiscrepancies` with its query trace. -/
def findDiscrepanciesLog (db : DB) :
    Except Unit DiscResult × List QueryId :=
  (findDiscrepancies db.prs db.mdms,
   [QueryId.typeMismatchQ, QueryId.missingInMdmsQ, QueryId.missingInPrsQ])

/-- `findDuplicates` with its query trace. -/
def findDuplicatesLog (db : DB) :
    Except Unit DupResult × List QueryId :=
  (findDuplicates db.prs db.mdms,
   [QueryId.prsDuplicatesQ, QueryId.mdmsDuplicatesQ, QueryId.crossTableQ])

/-- `DuplicateService.getDuplicatesByType`: it first runs the full
`findDuplicates` computation, then switches on the requested type; an
unrecognized type throws only after the computation. -/
def getDuplicatesByTypeSvc (db : DB) (ty : String) :
    Except SvcError DupByTypeOut × List QueryId :=
  let (dups, log) := findDuplicatesLog db
  (match dups with
   | .error _ => .error .queryFailure
   | .ok r =>
     if ty == "WITHIN_PRS" then .ok (.prsGroups r.prs)
     else if ty == "WITHIN_MDMS" then .ok (.mdmsGroups r.mdms)
     else if ty == "CROSS_TABLE" then .ok (.crossGroups r.crossTable)
     else .error .invalidTypeError,
   log)

/-- `DiscrepancyService.getDiscrepanciesByType` with its query trace (the
service itself does not validate the type; it filters and returns an empty
list for an unrecognized one). -/
def getDiscrepanciesByTypeSvcLog (db : DB) (ty : String) :
    Except Unit (List Disc) × List QueryId :=
  let (r, log) := findDiscrepanciesLog db
  (r.map (fun x => x.discrepancies.filter
    (fun d => d.discrepancyType == ty)), log)

/-- Status and success flag of a controller HTTP response. -/
structure HttpResponse where
  status : Nat
  success : Bool
deriving DecidableEq, Repr

/-- The discrepancy kinds accepted by the discrepancy controller. -/
def validDiscTypes : List String :=
  ["TYPE_MISMATCH", "MISSING_IN_PRS", "MISSING_IN_MDMS"]

/-- The duplicate origins accepted by the duplicate controller. -/
def validDupTypes : List String :=
  ["WITHIN_PRS", "WITHIN_MDMS", "CROSS_TABLE"]

/-- Controller `getDiscrepanciesByType`: rejects an unrecognized type with a
400 response before calling the service (so no query runs); otherwise it
invokes the service and wraps the outcome. -/
def getDiscrepanciesByTypeController (db : DB) (ty : String) :
    HttpResponse × List QueryId :=
  if !(validDiscTypes.contains ty) then (⟨400, false⟩, [])
  else
    let (r, log) := getDiscrepanciesByTypeSvcLog db ty
    ((match r with
      | .ok _ => ⟨200, true⟩
      | .error _ => ⟨500, false⟩), log)

/-- Controller `getDuplicatesByType`: same shape, for the duplicate
origins. -/
def getDuplicatesByTypeController (db : DB) (ty : String) :
    HttpResponse × List QueryId :=
  if !(validDupTypes.contains ty) then (⟨400, false⟩, [])
  else
    let (r, log) := getDuplicatesByTypeSvc db ty
    ((match r with
      | .ok _ => ⟨200, true⟩
      | .error _ => ⟨500, false⟩), log)

/-! ## Statement-level state model

The repository also contains code that mutates the two relations (the
simulation service issues UPDATE/INSERT/DELETE statements, ingestion
replaces both tables), so the statement interpreter below supports writes;
the two analysis services only ever issue the six SELECT statements. -/

/-- A SQL statement against the `prs`/`mdms` pair: the six read-only
statements of the two services, and representative mutating statements used
by the simulation and ingestion code. -/
inductive SqlStmt where
  | selectTypeMismatch
  | selectMissingInMdms
  | selectMissingInPrs
  | selectPrsDuplicates
  | selectMdmsDuplicates
  | selectCrossTable
  | insertPrs (r : PrsRow)
  | insertMdms (r : MdmsRow)
  | deleteAllPrs
  | deleteAllMdms
  | updatePrsBerthTypes (serials : List Int) (newType : String)

/-- Result set of one statement. -/
inductive SqlOut where
  | discRows (rows : Except Unit (List Disc))
  | prsGroups (gs : List PrsDupGroup)
  | mdmsGroups (gs : List MdmsDupGroup)
  | crossGroups (gs : Except Unit (List CrossDupGroup))
  | done

/-- Execute one statement: SELECTs read the state and leave it unchanged,
the mutating statements rewrite the relation they target. -/
def execStmt (db : DB) : SqlStmt → DB × SqlOut
  | .selectTypeMismatch =>
      (db, .discRows (typeMismatchQuery db.prs db.mdms))
  | .selectMissingInMdms =>
      (db, .discRows (missingInMdmsQuery db.prs db.mdms))
  | .selectMissingInPrs =>
      (db, .discRows (missingInPrsQuery db.prs db.mdms))
  | .selectPrsDuplicates => (db, .prsGroups (prsDuplicatesQuery db.prs))
  | .selectMdmsDuplicates => (db, .mdmsGroups (mdmsDuplicatesQuery db.mdms))
  | .selectCrossTable =>
      (db, .crossGroups (crossTableQuery db.prs db.mdms))
  | .insertPrs r => ({ db with prs := db.prs ++ [r] }, .done)
  | .insertMdms r => ({ db with mdms := db.mdms ++ [r] }, .done)
  | .deleteAllPrs => ({ db with prs := [] }, .done)
  | .deleteAllMdms => ({ db with mdms := [] }, .done)
  | .updatePrsBerthTypes serials newType =>
      ({ db with prs := db.prs.map (fun p =>
          if serials.contains p.serial_no then
            { p with berth_type := newType } else p) }, .done)

/-- View a statement result as discrepancy rows (dynamic typing of the
JavaScript result object; the mismatching branches are unreachable). -/
def SqlOut.asDiscRows : SqlOut → Except Unit (List Disc)
  | .discRows e => e
  | _ => .error ()

/-- View a statement result as a cross-table group list. -/
def SqlOut.asCrossGroups : SqlOut → Except Unit (List CrossDupGroup)
  | .crossGroups e => e
  | _ => .error ()

/-- View a statement result as a within-PRS group list. -/
def SqlOut.asPrsGroups : SqlOut → List PrsDupGroup
  | .prsGroups gs => gs
  | _ => []

/-- View a statement result as a within-MDMS group list. -/
def SqlOut.asMdmsGroups : SqlOut → List MdmsDupGroup
  | .mdmsGroups gs => gs
  | _ => []

/-- `findDiscrepancies` threaded through the statement interpreter: issue
the three SELECTs in order against the evolving state and assemble the
result object. -/
def findDiscrepanciesStateful (db : DB) : DB × Except Unit DiscResult :=
  let (db1, o1) := execStmt db .selectTypeMismatch
  let (db2, o2) := execStmt db1 .selectMissingInMdms
  let (db3, o3) := execStmt db2 .selectMissingInPrs
  (db3, do
    let tm ← o1.asDiscRows
    let mm ← o2.asDiscRows
    let mp ← o3.asDiscRows
    pure ⟨tm, mm, mp⟩)

/-- `findDuplicates` threaded through the statement interpreter. -/
def findDuplicatesStateful (db : DB) : DB × Except Unit DupResult :=
  let (db1, o1) := execStmt db .selectPrsDuplicates
  let (db2, o2) := execStmt db1 .selectMdmsDuplicates
  let (db3, o3) := execStmt db2 .selectCrossTable
  (db3, do
    let cross ← o3.asCrossGroups
    pure { prs := o1.asPrsGroups
           mdms := o2.asMdmsGroups
           crossTable := cross })

/-! ## Derived join keys and orderings used in the statements -/

deriving instance DecidableEq for Except

/-- The join key a PRS row contributes to `rowMatches` (normalised coach
code, normalised class, berth number). -/
def prsJoinKey (p : PrsRow) : String × String × Option Int :=
  (normTL p.coach_code, normTL p.classCode, p.berth_number)

/-- The join key an MDMS row contributes to `rowMatches`. -/
def mdmsJoinKey (m : MdmsRow) : String × String × Option Int :=
  (normTL m.prs_coach_code, normTL m.coach_class, m.berth_no)

/-- Comparison of the dynamically typed berth-number field, used to state
the ordering the specification claims (text against text by byte order,
integer against integer, `null` first; the mixed cases do not occur inside
one partition). -/
def jsValLeB : JsVal → JsVal → Bool
  | .null, _ => true
  | _, .null => false
  | .int a, .int b => decide (a ≤ b)
  | .str a, .str b => !(strLtB b a)
  | .int _, .str _ => true
  | .str _, .int _ => false

/-- The ordering by (coachIdentifier, berthNumber) the specification claims
for the output partitions. -/
def discPairLeB (a b : Disc) : Bool :=
  strLtB a.coachCode b.coachCode ||
    (a.coachCode == b.coachCode && jsValLeB a.berthNumber b.berthNumber)

/-- A partition is ordered by (coachIdentifier, berthNumber) ascending. -/
abbrev orderedByCoachBerth (l : List Disc) : Prop :=
  l.Pairwise (fun a b => discPairLeB a b = true)

/-! ## Concrete fixture rows used by the witnesses and counterexamples -/

/-- PRS row (1, B1, SL, berth 1, LB). -/
def fxP1 : PrsRow := ⟨1, "B1", false, "SL", some 1, "LB"⟩

/-- Second PRS row identical to `fxP1` except for the serial number. -/
def fxP2 : PrsRow := { fxP1 with serial_no := 2 }

/-- Third PRS row identical to `fxP1` except for the serial number. -/
def fxP3 : PrsRow := { fxP1 with serial_no := 3 }

/-- PRS row whose berth cell held non-numeric text in the spreadsheet:
ingestion stores SQL NULL for it. -/
def fxPBad : PrsRow := { fxP1 with berth_number := ingestBerthNumber (some "ABC") }

/-- PRS row with coach code B2. -/
def fxPB2 : PrsRow := ⟨1, "B2", false, "SL", some 1, "LB"⟩

/-- PRS row with coach code A1. -/
def fxPA1 : PrsRow := ⟨2, "A1", false, "SL", some 1, "LB"⟩

/-- MDMS row matching `fxP1` (differently formatted key, same qualifier). -/
def fxM1 : MdmsRow := ⟨1, "L1", false, "", "", " b1 ", "sl", some 1, "LB"⟩

/-- MDMS row matching `fxP1` with a different qualifier. -/
def fxM1U : MdmsRow := { fxM1 with berth_qualifier := "UB" }

/-- Second MDMS row identical to `fxM1U` except for the serial number. -/
def fxM2U : MdmsRow := { fxM1U with serial_no := 2 }

/-- A database with one matching PRS/MDMS pair. -/
def fxDB1 : DB := ⟨[fxP1], [fxM1]⟩

/-! ## Helper lemmas -/

/-- The computable rational floor agrees with the floor of the ordered
field. -/
theorem ratFloor_eq_intFloor (q : ℚ) : (Rat.floor q : ℤ) = ⌊q⌋ := by
  refine le_antisymm ?_ ?_
  · exact Int.le_floor.mpr (Rat.le_floor.mp le_rfl)
  · exact Rat.le_floor.mpr (Int.floor_le _)

/-- Rounding a finite JavaScript number, restated through the field
floor. -/
theorem jround_some (q : ℚ) :
    jround (some q) = some ((⌊q + 1/2⌋ : ℤ) : ℚ) := by
  simp [jround, ratFloor_eq_intFloor]

/-- Closed form of findDiscrepancies: the three row lists always come
back. -/
theorem findDiscrepancies_eq (prs : List PrsRow) (mdms : List MdmsRow) :
    findDiscrepancies prs mdms =
      .ok ⟨typeMismatchRowsOf prs mdms, missingInMdmsRowsOf prs mdms,
           missingInPrsRowsOf prs mdms⟩ :=
  rfl

/-- Closed form of findDuplicates: the three group lists always come
back. -/
theorem findDuplicates_eq (prs : List PrsRow) (mdms : List MdmsRow) :
    findDuplicates prs mdms =
      .ok ⟨prsDuplicatesQuery prs, mdmsDuplicatesQuery mdms,
           crossGroupsOf prs mdms⟩ :=
  rfl

/-- Inversion for a findDiscrepancies run. -/
theorem findDiscrepancies_ok (prs : List PrsRow) (mdms : List MdmsRow)
    (r : DiscResult) (h : findDiscrepancies prs mdms = .ok r) :
    r = ⟨typeMismatchRowsOf prs mdms, missingInMdmsRowsOf prs mdms,
         missingInPrsRowsOf prs mdms⟩ := by
  rw [findDiscrepancies_eq] at h
  exact (Except.ok.inj h).symm

/-- Inversion for a findDuplicates run. -/
theorem findDuplicates_ok (prs : List PrsRow) (mdms : List MdmsRow)
    (r : DupResult) (h : findDuplicates prs mdms = .ok r) :
    r = ⟨prsDuplicatesQuery prs, mdmsDuplicatesQuery mdms,
         crossGroupsOf prs mdms⟩ := by
  rw [findDuplicates_eq] at h
  exact (Except.ok.inj h).symm

/-! ## Claim C1 -/

/-- C1: a berthNumber holding a non-numeric string exists only at the
ingestion boundary — the INT column receives the SQL NULL which ingestion
stores for it.  For every pair of relations, such a row never raises:
every join comparison against its NULL berth is SQL UNKNOWN, so the row
matches no MDMS row, the missing-in-MDMS query reports it, and
findDiscrepancies returns the full three-partition result over all the
rows, so the remaining rows are still reconciled as usual. -/
theorem claim_C1_nonNumeric_berth_fails_join (prs : List PrsRow)
    (mdms : List MdmsRow) (s : String) (hs : parseIntegerText s = none)
    (p : PrsRow) (hp : p ∈ prs)
    (hb : p.berth_number = ingestBerthNumber (some s)) :
    (∀ m ∈ mdms, rowMatches p m = false) ∧
    findDiscrepancies prs mdms =
      .ok ⟨typeMismatchRowsOf prs mdms, missingInMdmsRowsOf prs mdms,
           missingInPrsRowsOf prs mdms⟩ ∧
    mkMissingInMdms p ∈ missingInMdmsRowsOf prs mdms := by
  have hnull : p.berth_number = none := by
    rw [hb]
    show (if s = "" then none else parseIntegerText s) = none
    by_cases he : s = ""
    · rw [if_pos he]
    · rw [if_neg he, hs]
  have hnom : ∀ m ∈ mdms, rowMatches p m = false := by
    intro m _
    unfold rowMatches
    rw [hnull]
    cases m.berth_no <;> simp
  refine ⟨hnom, findDiscrepancies_eq prs mdms, ?_⟩
  unfold missingInMdmsRowsOf
  refine List.mem_map.mpr ⟨p, List.mem_filter.mpr ⟨hp, ?_⟩, rfl⟩
  simp only [Bool.not_eq_eq_eq_not, Bool.not_true, List.any_eq_false]
  intro m hm
  rw [hnom m hm]
  simp

/-- C1, witness: the spreadsheet berth text "ABC" is stored as NULL; the
row is reported missing-in-MDMS and the other row still reconciles. -/
theorem claim_C1_nonNumeric_berth_fails_join_witness :
    (parseIntegerText "ABC" = none ∧ fxPBad ∈ [fxPBad, fxP1] ∧
      fxPBad.berth_number = ingestBerthNumber (some "ABC")) ∧
    ((∀ m ∈ [fxM1], rowMatches fxPBad m = false) ∧
     findDiscrepancies [fxPBad, fxP1] [fxM1] =
       .ok ⟨typeMismatchRowsOf [fxPBad, fxP1] [fxM1],
            missingInMdmsRowsOf [fxPBad, fxP1] [fxM1],
            missingInPrsRowsOf [fxPBad, fxP1] [fxM1]⟩ ∧
     mkMissingInMdms fxPBad ∈ missingInMdmsRowsOf [fxPBad, fxP1] [fxM1]) :=
  ⟨⟨by decide, by decide, by decide⟩,
   claim_C1_nonNumeric_berth_fails_join [fxPBad, fxP1] [fxM1] "ABC"
     (by decide) fxPBad (by decide) (by decide)⟩

/-! ## Claim C9 -/

/-- C9: findDiscrepancies and findDuplicates only issue SELECT statements,
so threading them through the statement interpreter leaves the database
state unchanged, row for row. -/
theorem claim_C9_relations_unchanged (db : DB) :
    (findDiscrepanciesStateful db).1 = db ∧
    (findDuplicatesStateful db).1 = db :=
  ⟨rfl, rfl⟩

/-! ## Claim C6 -/

/-- C6, counterexample: for an unrecognized duplicate type the service
method getDuplicatesByType issues all three duplicate queries (the full
findDuplicates computation) and only then throws the invalid-type error, so
the rejection is not "before performing any duplicate computation". -/
theorem claim_C6_counterexample :
    (getDuplicatesByTypeSvc fxDB1 "BOGUS").1 = .error .invalidTypeError ∧
    (getDuplicatesByTypeSvc fxDB1 "BOGUS").2 =
      [QueryId.prsDuplicatesQ, QueryId.mdmsDuplicatesQ,
       QueryId.crossTableQ] := by
  decide

/-- C6, amended: both HTTP controllers reject an unrecognized kind/type
value synchronously with a 400 response and no query is issued, and no
partial result escapes anywhere; but the DuplicateService method itself
runs the full duplicate computation (all three queries) before throwing. -/
theorem claim_C6_fail_fast_amended (db : DB) (ty : String)
    (hd : ty ∉ validDiscTypes) (hu : ty ∉ validDupTypes) :
    getDiscrepanciesByTypeController db ty = (⟨400, false⟩, []) ∧
    getDuplicatesByTypeController db ty = (⟨400, false⟩, []) ∧
    (∃ e, (getDuplicatesByTypeSvc db ty).1 = .error e) ∧
    (getDuplicatesByTypeSvc db ty).2 =
      [QueryId.prsDuplicatesQ, QueryId.mdmsDuplicatesQ,
       QueryId.crossTableQ] := by
  have hd1 : validDiscTypes.contains ty = false := by
    simpa using hd
  have hu1 : validDupTypes.contains ty = false := by
    simpa using hu
  have hne : ∀ s, s ∈ validDupTypes → (ty == s) = false := by
    intro s hs
    exact beq_eq_false_iff_ne.mpr (fun hts => hu (hts ▸ hs))
  refine ⟨?_, ?_, ?_, ?_⟩
  · simp only [getDiscrepanciesByTypeController, hd1, Bool.not_false, if_true]
  · simp only [getDuplicatesByTypeController, hu1, Bool.not_false, if_true]
  · unfold getDuplicatesByTypeSvc findDuplicatesLog
    cases hfd : findDuplicates db.prs db.mdms with
    | error e => exact ⟨.queryFailure, rfl⟩
    | ok r =>
      refine ⟨.invalidTypeError, ?_⟩
      simp [hne "WITHIN_PRS" (by simp [validDupTypes]),
            hne "WITHIN_MDMS" (by simp [validDupTypes]),
            hne "CROSS_TABLE" (by simp [validDupTypes])]
  · rfl

/-- C6, witness for the amended theorem at a concrete database and type. -/
theorem claim_C6_fail_fast_amended_witness :
    getDiscrepanciesByTypeController fxDB1 "BOGUS" = (⟨400, false⟩, []) ∧
    getDuplicatesByTypeController fxDB1 "BOGUS" = (⟨400, false⟩, []) ∧
    (∃ e, (getDuplicatesByTypeSvc fxDB1 "BOGUS").1 = .error e) ∧
    (getDuplicatesByTypeSvc fxDB1 "BOGUS").2 =
      [QueryId.prsDuplicatesQ, QueryId.mdmsDuplicatesQ,
       QueryId.crossTableQ] :=
  claim_C6_fail_fast_amended fxDB1 "BOGUS" (by decide) (by decide)

/-! ## Claim C7 -/

/-- C7, counterexample: the coach-code filter is raw `===` equality, not
case-insensitive: filtering the same result set by "b1" selects nothing
while filtering by "B1" selects the discrepancy, so the two spellings are
not treated alike. -/
theorem claim_C7_counterexample :
    getDiscrepanciesForCoachCodeSvc [fxP1] [] "b1" = .ok [] ∧
    getDiscrepanciesForCoachCodeSvc [fxP1] [] "B1" =
      .ok [mkMissingInMdms fxP1] := by
  decide

/-! ## Claim C5 -/

/-- Keeping only elements satisfying a conjunction gives a subsequence of
keeping only elements satisfying one conjunct. -/
theorem filter_and_sublist (p q : α → Bool) (l : List α) :
    (l.filter (fun a => p a && q a)).Sublist (l.filter p) := by
  induction l with
  | nil => simp
  | cons a l ih =>
      by_cases hp : p a
      · by_cases hq : q a
        · simpa [List.filter_cons, hp, hq] using ih.cons₂ a
        · simpa [List.filter_cons, hp, hq] using ih.cons a
      · simpa [List.filter_cons, hp] using ih

/-- Pointwise subsequences lift through flatMap over the same spine. -/
theorem flatMap_sublist_of_forall (l : List α) (f g : α → List β)
    (h : ∀ a ∈ l, (f a).Sublist (g a)) :
    (l.flatMap f).Sublist (l.flatMap g) := by
  induction l with
  | nil => simp
  | cons a l ih =>
      simp only [List.flatMap_cons]
      exact (h a (by simp)).append (ih (fun b hb => h b (by simp [hb])))

/-- C5, counterexample: the three discrepancy queries contain no ORDER BY,
so a partition is not ordered by (coachIdentifier, berthNumber): with the
PRS relation listing coach B2 before coach A1 and an empty MDMS relation,
the missing-in-MDMS partition comes back in scan order B2, A1. -/
theorem claim_C5_counterexample :
    ∃ r, findDiscrepancies [fxPB2, fxPA1] [] = .ok r ∧
      ¬ orderedByCoachBerth r.missingInMdmsRows :=
  ⟨⟨[], [mkMissingInMdms fxPB2, mkMissingInMdms fxPA1], []⟩,
   by decide, by decide⟩

/-- C5, amended: no sorting is applied; each partition preserves the scan
order of its driving relation — the missing-in-MDMS rows are a subsequence
of the PRS relation as listed, the missing-in-PRS rows a subsequence of the
MDMS relation, and the type-mismatch rows a subsequence of the joined pair
sequence. -/
theorem claim_C5_partitions_scan_order (prs : List PrsRow)
    (mdms : List MdmsRow) (r : DiscResult)
    (h : findDiscrepancies prs mdms = .ok r) :
    r.typeMismatchRows.Sublist
      ((crossPairs prs mdms).map (fun pr => mkTypeMismatch pr.1 pr.2)) ∧
    r.missingInMdmsRows.Sublist (prs.map mkMissingInMdms) ∧
    r.missingInPrsRows.Sublist (mdms.map mkMissingInPrs) := by
  obtain rfl := findDiscrepancies_ok prs mdms r h
  refine ⟨?_, ?_, ?_⟩
  · unfold typeMismatchRowsOf crossPairs
    rw [List.map_flatMap]
    refine flatMap_sublist_of_forall _ _ _ (fun p _ => ?_)
    rw [List.map_map]
    exact (filter_and_sublist _ _ _).map _
  · exact (List.filter_sublist prs).map _
  · exact (List.filter_sublist mdms).map _

/-- C5, witness for the amended theorem at a concrete input. -/
theorem claim_C5_partitions_scan_order_witness :
    (DiscResult.typeMismatchRows
        ⟨[], [mkMissingInMdms fxPB2, mkMissingInMdms fxPA1], []⟩).Sublist
      ((crossPairs [fxPB2, fxPA1] []).map
        (fun pr => mkTypeMismatch pr.1 pr.2)) ∧
    (DiscResult.missingInMdmsRows
        ⟨[], [mkMissingInMdms fxPB2, mkMissingInMdms fxPA1], []⟩).Sublist
      ([fxPB2, fxPA1].map mkMissingInMdms) ∧
    (DiscResult.missingInPrsRows
        ⟨[], [mkMissingInMdms fxPB2, mkMissingInMdms fxPA1], []⟩).Sublist
      (([] : List MdmsRow).map mkMissingInPrs) :=
  claim_C5_partitions_scan_order [fxPB2, fxPA1] []
    ⟨[], [mkMissingInMdms fxPB2, mkMissingInMdms fxPA1], []⟩ (by decide)

/-! ## Claim C2 -/

/-- Rounding an exact integer leaves it unchanged. -/
theorem intFloor_add_half (n : ℤ) : ⌊(n : ℚ) + 1/2⌋ = n := by
  rw [Int.floor_eq_iff]
  constructor
  · norm_num
  · norm_num

/-- C2: the claim (and the specification) say that with zero discrepancies
the three per-kind percentages are 0 and the quality score 100.  The code
computes each percentage as `Math.round((0 / 0) * 10000) / 100`, which is
NaN, not 0; only the quality score comes out as 100 (and even it is NaN
when both relations are empty, which is also exercised here).  The state
used has one PRS row and one matching MDMS row, so totalDiscrepancies is
0. -/
theorem claim_C2_zero_total_gives_nan_percentages :
    (∃ s, getDetailedSummary [fxP1] [fxM1] = .ok s ∧
      s.overview.totalDiscrepancies = 0 ∧
      s.discrepancyBreakdown.typeMismatchPercentage = none ∧
      s.discrepancyBreakdown.missingInPrsPercentage = none ∧
      s.discrepancyBreakdown.missingInMdmsPercentage = none ∧
      s.overview.dataQualityScore = some 100) ∧
    (∃ s, getDetailedSummary [] [] = .ok s ∧
      s.overview.totalDiscrepancies = 0 ∧
      s.overview.dataQualityScore = none) := by
  have h1 : findDiscrepancies [fxP1] [fxM1] = .ok ⟨[], [], []⟩ := by decide
  have h0 : findDiscrepancies [] [] = .ok ⟨[], [], []⟩ := by decide
  have hpct : pctOf 0 0 = none := by
    simp [pctOf, jdiv, jmul, jround, jfin]
  constructor
  · refine ⟨_, by rw [getDetailedSummary, h1]; rfl, by decide, ?_, ?_, ?_, ?_⟩
    · exact hpct
    · exact hpct
    · exact hpct
    · have e1 : jdiv (jfin (((1:ℕ):ℚ) - ((0:ℕ):ℚ))) (jfin ((1:ℕ):ℚ)) =
          some 1 := by
        norm_num [jdiv, jfin]
      have e2 : jmul (some (1:ℚ)) (jfin 100) = some 100 := by
        norm_num [jmul, jfin]
      have e3 : jmul (some (100:ℚ)) (jfin 100) = some 10000 := by
        norm_num [jmul, jfin]
      have e4 : jround (some (10000:ℚ)) = some 10000 := by
        rw [jround_some]
        rw [show ((10000:ℚ)) = ((10000:ℤ):ℚ) by norm_num]
        rw [intFloor_add_half]
      have e5 : jdiv (some (10000:ℚ)) (jfin 100) = some 100 := by
        norm_num [jdiv, jfin]
      show jdiv (jround (jmul (jmul (jdiv
          (jfin (((1:ℕ):ℚ) - ((0:ℕ):ℚ))) (jfin ((1:ℕ):ℚ)))
          (jfin 100)) (jfin 100))) (jfin 100) = some 100
      rw [e1, e2, e3, e4, e5]
  · refine ⟨_, by rw [getDetailedSummary, h0]; rfl, by decide, ?_⟩
    show jdiv (jround (jmul (jmul (jdiv
        (jfin (((0:ℕ):ℚ) - ((0:ℕ):ℚ))) (jfin ((0:ℕ):ℚ)))
        (jfin 100)) (jfin 100))) (jfin 100) = none
    norm_num [jdiv, jmul, jround, jfin]

/-! ## Claim C3, counterexample -/

/-- C3, counterexample: the type-mismatch query is an inner join, so one
PRS row matching two MDMS rows yields two type-mismatch rows, and
typeMismatchCount + missingInMdmsCount exceeds the PRS row count. -/
theorem claim_C3_counterexample :
    ∃ r, findDiscrepancies [fxP1] [fxM1U, fxM2U] = .ok r ∧
      r.typeMismatchCount + r.missingInMdmsCount = 2 ∧
      ([fxP1] : List PrsRow).length = 1 ∧
      ¬(r.typeMismatchCount + r.missingInMdmsCount ≤
        ([fxP1] : List PrsRow).length) :=
  ⟨_, rfl, by decide, by decide, by decide⟩

/-! ## Claim C4 -/

/-- C4, counterexample: with two identical PRS rows and two identical
matching MDMS rows with a different qualifier, the inner join yields four
type mismatches against a largest relation of two rows, so the quality
score is negative (-100); the duplicate side counts twelve duplicate
records against four rows, so the integrity score is -200.  Both scores
leave the claimed interval [0, 100]. -/
theorem claim_C4_counterexample :
    (∃ s, getDetailedSummary [fxP1, fxP2] [fxM1U, fxM2U] = .ok s ∧
      s.overview.dataQualityScore = some (-100) ∧ ¬((0:ℚ) ≤ -100)) ∧
    (∃ t, getDetailedDuplicateSummary [fxP1, fxP2] [fxM1U, fxM2U] = .ok t ∧
      t.overview.dataIntegrityScore = some (-200) ∧ ¬((0:ℚ) ≤ -200)) := by
  have h1 : findDiscrepancies [fxP1, fxP2] [fxM1U, fxM2U] =
      .ok ⟨[mkTypeMismatch fxP1 fxM1U, mkTypeMismatch fxP1 fxM2U,
            mkTypeMismatch fxP2 fxM1U, mkTypeMismatch fxP2 fxM2U],
           [], []⟩ := by decide
  have h2 : findDuplicates [fxP1, fxP2] [fxM1U, fxM2U] =
      .ok ⟨[⟨"B1", "SL", some 1, "LB", 2, [1, 2]⟩],
           [⟨" b1 ", "L1", some 1, "UB", 2, [1, 2]⟩],
           [⟨"B1", "SL", some 1, "LB", "UB", 4, 4, [1, 2], [1, 2]⟩]⟩ := by
    decide
  constructor
  · refine ⟨_, by rw [getDetailedSummary, h1]; rfl, ?_, by norm_num⟩
    have e1 : jdiv (jfin (((2:ℕ):ℚ) - ((4:ℕ):ℚ))) (jfin ((2:ℕ):ℚ)) =
        some (-1) := by norm_num [jdiv, jfin]
    have e2 : jmul (some (-1:ℚ)) (jfin 100) = some (-100) := by
      norm_num [jmul, jfin]
    have e3 : jmul (some (-100:ℚ)) (jfin 100) = some (-10000) := by
      norm_num [jmul, jfin]
    have e4 : jround (some (-10000:ℚ)) = some (-10000) := by
      rw [jround_some]
      rw [show ((-10000:ℚ)) = ((-10000:ℤ):ℚ) by norm_num]
      rw [intFloor_add_half]
    have e5 : jdiv (some (-10000:ℚ)) (jfin 100) = some (-100) := by
      norm_num [jdiv, jfin]
    show jdiv (jround (jmul (jmul (jdiv
        (jfin (((2:ℕ):ℚ) - ((4:ℕ):ℚ))) (jfin ((2:ℕ):ℚ)))
        (jfin 100)) (jfin 100))) (jfin 100) = some (-100)
    rw [e1, e2, e3, e4, e5]
  · refine ⟨_, by rw [getDetailedDuplicateSummary, h2]; rfl, ?_, by norm_num⟩
    have e1 : jdiv (jfin (((2:ℕ):ℚ) + ((2:ℕ):ℚ) - ((12:ℕ):ℚ)))
        (jfin (((2:ℕ):ℚ) + ((2:ℕ):ℚ))) = some (-2) := by
      norm_num [jdiv, jfin]
    have e2 : jmul (some (-2:ℚ)) (jfin 10000) = some (-20000) := by
      norm_num [jmul, jfin]
    have e3 : jround (some (-20000:ℚ)) = some (-20000) := by
      rw [jround_some]
      rw [show ((-20000:ℚ)) = ((-20000:ℤ):ℚ) by norm_num]
      rw [intFloor_add_half]
    have e4 : jdiv (some (-20000:ℚ)) (jfin 100) = some (-200) := by
      norm_num [jdiv, jfin]
    show jdiv (jround (jmul (jdiv
        (jfin (((2:ℕ):ℚ) + ((2:ℕ):ℚ) - ((12:ℕ):ℚ)))
        (jfin (((2:ℕ):ℚ) + ((2:ℕ):ℚ)))) (jfin 10000))) (jfin 100) =
      some (-200)
    rw [e1, e2, e3, e4]

/-- Rounding then dividing by 100 keeps a value that was at most 10000
below 100. -/
theorem jround_div100_le (x : ℚ) (hx : x ≤ 10000) :
    ∃ q, jdiv (jround (some x)) (jfin 100) = some q ∧ q ≤ 100 := by
  rw [jround_some]
  refine ⟨((⌊x + 1/2⌋ : ℤ) : ℚ) / 100, ?_, ?_⟩
  · show (if (100:ℚ) = 0 then none
        else some (((⌊x + 1/2⌋ : ℤ) : ℚ) / 100)) =
      some (((⌊x + 1/2⌋ : ℤ) : ℚ) / 100)
    rw [if_neg (by norm_num : ¬(100:ℚ) = 0)]
  have hfl : ⌊x + 1/2⌋ ≤ 10000 := by
    have h1 : x + 1/2 ≤ ((10000:ℤ):ℚ) + 1/2 := by push_cast; linarith
    have h2 := Int.floor_le_floor h1
    rwa [intFloor_add_half] at h2
  rw [div_le_iff₀ (by norm_num : (0:ℚ) < 100)]
  calc ((⌊x + 1/2⌋ : ℤ) : ℚ) ≤ ((10000:ℤ):ℚ) := by exact_mod_cast hfl
    _ = 100 * 100 := by norm_num

/-- C4, amended: for all finite non-negative inputs with at least one row
on some side, both scores are finite and at most 100; the lower bound 0 of
the claim does not hold (see the counterexample), so only the upper half of
the claimed interval survives. -/
theorem claim_C4_scores_at_most_100 (prs : List PrsRow)
    (mdms : List MdmsRow) (hn : prs ≠ [] ∨ mdms ≠ []) :
    (∃ s q, getDetailedSummary prs mdms = .ok s ∧
      s.overview.dataQualityScore = some q ∧ q ≤ 100) ∧
    (∃ t q, getDetailedDuplicateSummary prs mdms = .ok t ∧
      t.overview.dataIntegrityScore = some q ∧ q ≤ 100) := by
  have hfd : findDiscrepancies prs mdms =
      .ok ⟨typeMismatchRowsOf prs mdms, missingInMdmsRowsOf prs mdms,
           missingInPrsRowsOf prs mdms⟩ := findDiscrepancies_eq prs mdms
  have hfu : findDuplicates prs mdms =
      .ok ⟨prsDuplicatesQuery prs, mdmsDuplicatesQuery mdms,
           crossGroupsOf prs mdms⟩ := findDuplicates_eq prs mdms
  constructor
  · -- quality score
    have hmx : 0 < max prs.length mdms.length := by
      rcases hn with h | h
      · exact lt_max_of_lt_left (List.length_pos.mpr h)
      · exact lt_max_of_lt_right (List.length_pos.mpr h)
    have hmxq : (0:ℚ) < ((max prs.length mdms.length : ℕ) : ℚ) := by
      exact_mod_cast hmx
    set d : ℕ := (DiscResult.totalDiscrepancies
      ⟨typeMismatchRowsOf prs mdms, missingInMdmsRowsOf prs mdms,
       missingInPrsRowsOf prs mdms⟩) with hd
    have hq0 : ((max prs.length mdms.length : ℕ) : ℚ) - (d:ℚ) ≤
        ((max prs.length mdms.length : ℕ) : ℚ) := by
      have : (0:ℚ) ≤ (d:ℚ) := by positivity
      linarith
    have e1 : jdiv (jfin (((max prs.length mdms.length : ℕ) : ℚ) - (d:ℚ)))
        (jfin ((max prs.length mdms.length : ℕ) : ℚ)) =
        some ((((max prs.length mdms.length : ℕ) : ℚ) - (d:ℚ)) /
          ((max prs.length mdms.length : ℕ) : ℚ)) := by
      show (if ((max prs.length mdms.length : ℕ) : ℚ) = 0 then none
          else some ((((max prs.length mdms.length : ℕ) : ℚ) - (d:ℚ)) /
            ((max prs.length mdms.length : ℕ) : ℚ))) = _
      rw [if_neg (ne_of_gt hmxq)]
    have hq1 : (((max prs.length mdms.length : ℕ) : ℚ) - (d:ℚ)) /
        ((max prs.length mdms.length : ℕ) : ℚ) ≤ 1 :=
      (div_le_one hmxq).mpr hq0
    have hx : (((max prs.length mdms.length : ℕ) : ℚ) - (d:ℚ)) /
        ((max prs.length mdms.length : ℕ) : ℚ) * 100 * 100 ≤ 10000 := by
      nlinarith
    obtain ⟨q, hq_eq, hq_le⟩ := jround_div100_le _ hx
    refine ⟨_, q, by rw [getDetailedSummary, hfd]; rfl, ?_, hq_le⟩
    show jdiv (jround (jmul (jmul (jdiv
        (jfin (((max prs.length mdms.length : ℕ) : ℚ) - (d:ℚ)))
        (jfin ((max prs.length mdms.length : ℕ) : ℚ)))
        (jfin 100)) (jfin 100))) (jfin 100) = some q
    rw [e1]
    rw [show jmul (jmul (some ((((max prs.length mdms.length : ℕ) : ℚ) -
        (d:ℚ)) / ((max prs.length mdms.length : ℕ) : ℚ))) (jfin 100))
        (jfin 100) =
        some ((((max prs.length mdms.length : ℕ) : ℚ) - (d:ℚ)) /
          ((max prs.length mdms.length : ℕ) : ℚ) * 100 * 100) from rfl]
    exact hq_eq
  · -- integrity score
    have hpm : 0 < prs.length + mdms.length := by
      rcases hn with h | h
      · exact Nat.lt_of_lt_of_le (List.length_pos.mpr h) (Nat.le_add_right _ _)
      · exact Nat.lt_of_lt_of_le (List.length_pos.mpr h) (Nat.le_add_left _ _)
    have hpmq : (0:ℚ) < (prs.length : ℚ) + (mdms.length : ℚ) := by
      have : (0:ℚ) < ((prs.length + mdms.length : ℕ) : ℚ) := by
        exact_mod_cast hpm
      push_cast at this
      linarith
    set t : ℕ := (DupResult.totalDuplicateRecords
      ⟨prsDuplicatesQuery prs, mdmsDuplicatesQuery mdms,
       crossGroupsOf prs mdms⟩) with ht
    have e1 : jdiv (jfin ((prs.length : ℚ) + (mdms.length : ℚ) - (t:ℚ)))
        (jfin ((prs.length : ℚ) + (mdms.length : ℚ))) =
        some (((prs.length : ℚ) + (mdms.length : ℚ) - (t:ℚ)) /
          ((prs.length : ℚ) + (mdms.length : ℚ))) := by
      show (if (prs.length : ℚ) + (mdms.length : ℚ) = 0 then none
          else some (((prs.length : ℚ) + (mdms.length : ℚ) - (t:ℚ)) /
            ((prs.length : ℚ) + (mdms.length : ℚ)))) = _
      rw [if_neg (ne_of_gt hpmq)]
    have hq1 : ((prs.length : ℚ) + (mdms.length : ℚ) - (t:ℚ)) /
        ((prs.length : ℚ) + (mdms.length : ℚ)) ≤ 1 := by
      refine (div_le_one hpmq).mpr ?_
      have : (0:ℚ) ≤ (t:ℚ) := by positivity
      linarith
    have hx : ((prs.length : ℚ) + (mdms.length : ℚ) - (t:ℚ)) /
        ((prs.length : ℚ) + (mdms.length : ℚ)) * 10000 ≤ 10000 := by
      nlinarith
    obtain ⟨q, hq_eq, hq_le⟩ := jround_div100_le _ hx
    refine ⟨_, q, by rw [getDetailedDuplicateSummary, hfu]; rfl, ?_, hq_le⟩
    show jdiv (jround (jmul (jdiv
        (jfin ((prs.length : ℚ) + (mdms.length : ℚ) - (t:ℚ)))
        (jfin ((prs.length : ℚ) + (mdms.length : ℚ))))
        (jfin 10000))) (jfin 100) = some q
    rw [e1]
    rw [show jmul (some (((prs.length : ℚ) + (mdms.length : ℚ) - (t:ℚ)) /
        ((prs.length : ℚ) + (mdms.length : ℚ)))) (jfin 10000) =
        some (((prs.length : ℚ) + (mdms.length : ℚ) - (t:ℚ)) /
          ((prs.length : ℚ) + (mdms.length : ℚ)) * 10000) from rfl]
    exact hq_eq

/-- C4, witness for the amended theorem at a concrete database. -/
theorem claim_C4_scores_at_most_100_witness :
    (∃ s q, getDetailedSummary [fxP1] [fxM1] = .ok s ∧
      s.overview.dataQualityScore = some q ∧ q ≤ 100) ∧
    (∃ t q, getDetailedDuplicateSummary [fxP1] [fxM1] = .ok t ∧
      t.overview.dataIntegrityScore = some q ∧ q ≤ 100) :=
  claim_C4_scores_at_most_100 [fxP1] [fxM1] (Or.inl (by decide))

/-! ## Claim C7 (amended) -/

/-- C7, amended: both coach-code filters select exactly the entries whose
coachCode equals the filter value under case-sensitive raw string equality
(the claimed case-insensitive matching does not hold, see the
counterexample). -/
theorem claim_C7_filters_case_sensitive (prs : List PrsRow)
    (mdms : List MdmsRow) (c : String) (r : DiscResult)
    (h : findDiscrepancies prs mdms = .ok r) (du : DupResult)
    (h2 : findDuplicates prs mdms = .ok du) :
    (∃ l, getDiscrepanciesForCoachCodeSvc prs mdms c = .ok l ∧
      ∀ d, d ∈ l ↔ d ∈ r.discrepancies ∧ d.coachCode = c) ∧
    (∃ gp gm gc,
      getDuplicatesForCoachCodeSvc prs mdms c = .ok (gp, gm, gc) ∧
      (∀ g, g ∈ gp ↔ g ∈ du.prs ∧ g.coachCode = c) ∧
      (∀ g, g ∈ gm ↔ g ∈ du.mdms ∧ g.coachCode = c) ∧
      (∀ g, g ∈ gc ↔ g ∈ du.crossTable ∧ g.coachCode = c)) := by
  constructor
  · refine ⟨_, by rw [getDiscrepanciesForCoachCodeSvc, h]; rfl, ?_⟩
    intro d
    simp [List.mem_filter]
  · refine ⟨_, _, _, by rw [getDuplicatesForCoachCodeSvc, h2]; rfl,
      ?_, ?_, ?_⟩ <;>
      intro g <;> simp [List.mem_filter]

/-- C7, witness for the amended theorem at a concrete input. -/
theorem claim_C7_filters_case_sensitive_witness :
    (∃ l, getDiscrepanciesForCoachCodeSvc [fxP1] [] "B1" = .ok l ∧
      ∀ d, d ∈ l ↔
        d ∈ DiscResult.discrepancies ⟨[], [mkMissingInMdms fxP1], []⟩ ∧
        d.coachCode = "B1") ∧
    (∃ gp gm gc,
      getDuplicatesForCoachCodeSvc [fxP1] [] "B1" = .ok (gp, gm, gc) ∧
      (∀ g, g ∈ gp ↔ g ∈ DupResult.prs ⟨[], [], []⟩ ∧ g.coachCode = "B1") ∧
      (∀ g, g ∈ gm ↔ g ∈ DupResult.mdms ⟨[], [], []⟩ ∧ g.coachCode = "B1") ∧
      (∀ g, g ∈ gc ↔ g ∈ DupResult.crossTable ⟨[], [], []⟩ ∧
        g.coachCode = "B1")) :=
  claim_C7_filters_case_sensitive [fxP1] [] "B1"
    ⟨[], [mkMissingInMdms fxP1], []⟩ (by decide) ⟨[], [], []⟩ (by decide)

/-! ## Claim C8 -/

/-- C8: the within-PRS part of findDuplicates groups the rows by raw
equality of (coach_code, class, berth_number, berth_type) and returns
exactly the keys with more than one row: every emitted group carries the
exact cardinality of its key's rows as duplicateCount (necessarily greater
than one) and the multiset of member serial numbers sorted ascending, and
every key with more than one row is emitted. -/
theorem claim_C8_within_prs_grouping (prs : List PrsRow)
    (mdms : List MdmsRow) (du : DupResult)
    (h : findDuplicates prs mdms = .ok du) :
    (∀ g ∈ du.prs,
      1 < g.duplicateCount ∧
      g.duplicateCount = (prs.filter (fun rw => prsKey rw ==
        (g.coachCode, g.classCode, g.berthNumber, g.berthType))).length ∧
      g.serialNumbers.Perm ((prs.filter (fun rw => prsKey rw ==
        (g.coachCode, g.classCode, g.berthNumber, g.berthType))).map
          PrsRow.serial_no) ∧
      List.Sorted (· ≤ ·) g.serialNumbers) ∧
    (∀ k, 1 < (prs.filter (fun rw => prsKey rw == k)).length →
      ∃ g ∈ du.prs,
        (g.coachCode, g.classCode, g.berthNumber, g.berthType) = k) := by
  obtain rfl := findDuplicates_ok prs mdms du h
  constructor
  · intro g hg
    have hg1 : g ∈ ((prs.map prsKey).dedup).filterMap (fun k =>
        let ms := prs.filter (fun rw => prsKey rw == k)
        if 1 < ms.length then
          some { coachCode := k.1
                 classCode := k.2.1
                 berthNumber := k.2.2.1
                 berthType := k.2.2.2
                 duplicateCount := ms.length
                 serialNumbers := sortSerials (ms.map PrsRow.serial_no) }
        else none) :=
      (List.perm_insertionSort _ _).subset hg
    obtain ⟨k, -, hfk⟩ := List.mem_filterMap.mp hg1
    obtain ⟨k1, k2, k3, k4⟩ := k
    by_cases hlen :
        1 < (prs.filter (fun rw => prsKey rw == (k1, k2, k3, k4))).length
    · rw [if_pos hlen] at hfk
      obtain rfl := Option.some.inj hfk
      refine ⟨hlen, rfl, ?_, ?_⟩
      · exact List.perm_insertionSort _ _
      · exact List.sorted_insertionSort _ _
    · rw [if_neg hlen] at hfk
      exact absurd hfk (by simp)
  · intro k hk
    obtain ⟨k1, k2, k3, k4⟩ := k
    have hne : (prs.filter (fun rw => prsKey rw == (k1, k2, k3, k4))) ≠
        [] := by
      intro hnil
      rw [hnil] at hk
      exact absurd hk (by simp)
    obtain ⟨a, ha⟩ := List.exists_mem_of_ne_nil _ hne
    have hamem := (List.mem_filter.mp ha).1
    have hakey : prsKey a = (k1, k2, k3, k4) :=
      beq_iff_eq.mp (List.mem_filter.mp ha).2
    have hkmem : (k1, k2, k3, k4) ∈ (prs.map prsKey).dedup :=
      List.mem_dedup.mpr (List.mem_map.mpr ⟨a, hamem, hakey⟩)
    refine ⟨{ coachCode := k1
              classCode := k2
              berthNumber := k3
              berthType := k4
              duplicateCount :=
                (prs.filter (fun rw => prsKey rw == (k1, k2, k3, k4))).length
              serialNumbers := sortSerials ((prs.filter (fun rw =>
                prsKey rw == (k1, k2, k3, k4))).map PrsRow.serial_no) },
      (List.perm_insertionSort _ _).mem_iff.mpr
        (List.mem_filterMap.mpr ⟨(k1, k2, k3, k4), hkmem, ?_⟩), rfl⟩
    rw [if_pos hk]

/-- C8, witness: three PRS rows identical in the grouping tuple yield (by
the theorem) a group whose key is that tuple, with duplicateCount 3 and
serial numbers 1, 2, 3, matching scenario 4 of the specification. -/
theorem claim_C8_within_prs_grouping_witness :
    (∀ g ∈ (DupResult.prs ⟨[⟨"B1", "SL", some 1, "LB", 3, [1, 2, 3]⟩],
        [], []⟩),
      1 < g.duplicateCount ∧
      g.duplicateCount = ([fxP1, fxP2, fxP3].filter (fun rw => prsKey rw ==
        (g.coachCode, g.classCode, g.berthNumber, g.berthType))).length ∧
      g.serialNumbers.Perm (([fxP1, fxP2, fxP3].filter (fun rw =>
        prsKey rw ==
        (g.coachCode, g.classCode, g.berthNumber, g.berthType))).map
          PrsRow.serial_no) ∧
      List.Sorted (· ≤ ·) g.serialNumbers) ∧
    (∀ k, 1 < ([fxP1, fxP2, fxP3].filter
        (fun rw => prsKey rw == k)).length →
      ∃ g ∈ (DupResult.prs ⟨[⟨"B1", "SL", some 1, "LB", 3, [1, 2, 3]⟩],
          [], []⟩),
        (g.coachCode, g.classCode, g.berthNumber, g.berthType) = k) :=
  claim_C8_within_prs_grouping [fxP1, fxP2, fxP3] []
    ⟨[⟨"B1", "SL", some 1, "LB", 3, [1, 2, 3]⟩], [], []⟩ (by decide)

/-! ## Claim C10 -/

/-- C10: every cross-table duplicate group reports prsCount equal to
mdmsCount, and both equal the number of joined row pairs carrying the
group's key — not the per-side row counts (the witness exhibits sides of
one and two rows both reported as 2). -/
theorem claim_C10_cross_counts_are_pair_counts (prs : List PrsRow)
    (mdms : List MdmsRow) (du : DupResult)
    (h : findDuplicates prs mdms = .ok du) :
    ∀ g ∈ du.crossTable,
      g.prsCount = g.mdmsCount ∧
      g.prsCount = ((crossPairs prs mdms).filter (fun pr => crossKey pr ==
        (g.coachCode, g.classCode, g.berthNumber, g.berthType,
         g.berthQualifier))).length ∧
      (1 < g.prsCount ∨ 1 < g.mdmsCount) := by
  obtain rfl := findDuplicates_ok prs mdms du h
  intro g hg
  have hg1 : g ∈ (((crossPairs prs mdms).map crossKey).dedup).filterMap
      (fun k =>
        let grp := (crossPairs prs mdms).filter (fun pr => crossKey pr == k)
        let prsCount := (grp.map (fun pr => pr.1.serial_no)).length
        let mdmsCount := (grp.map (fun pr => pr.2.serial_no)).length
        if 1 < prsCount ∨ 1 < mdmsCount then
          some { coachCode := k.1
                 classCode := k.2.1
                 berthNumber := k.2.2.1
                 berthType := k.2.2.2.1
                 berthQualifier := k.2.2.2.2
                 prsCount := prsCount
                 mdmsCount := mdmsCount
                 prsSerialNumbers :=
                   sortSerials ((grp.map (fun pr => pr.1.serial_no)).dedup)
                 mdmsSerialNumbers :=
                   sortSerials ((grp.map (fun pr => pr.2.serial_no)).dedup) }
        else none) :=
    (List.perm_insertionSort _ _).subset hg
  obtain ⟨k, -, hfk⟩ := List.mem_filterMap.mp hg1
  obtain ⟨k1, k2, k3, k4, k5⟩ := k
  by_cases hlen :
      1 < (((crossPairs prs mdms).filter (fun pr =>
        crossKey pr == (k1, k2, k3, k4, k5))).map
          (fun pr => pr.1.serial_no)).length ∨
      1 < (((crossPairs prs mdms).filter (fun pr =>
        crossKey pr == (k1, k2, k3, k4, k5))).map
          (fun pr => pr.2.serial_no)).length
  · rw [if_pos hlen] at hfk
    obtain rfl := Option.some.inj hfk
    refine ⟨by rw [List.length_map, List.length_map], by rw [List.length_map],
      ?_⟩
    have hl : 1 < ((crossPairs prs mdms).filter (fun pr =>
        crossKey pr == (k1, k2, k3, k4, k5))).length := by
      rwa [List.length_map, List.length_map, or_self] at hlen
    exact Or.inl (by rw [List.length_map]; exact hl)
  · rw [if_neg hlen] at hfk
    exact absurd hfk (by simp)

/-- C10, witness: one PRS row joining two MDMS rows at one key forms a
single cross-table group whose prsCount and mdmsCount are both the pair
count 2 — not the per-side row counts 1 and 2. -/
theorem claim_C10_cross_counts_witness :
    ([fxP1] : List PrsRow).length = 1 ∧
    ([fxM1U, fxM2U] : List MdmsRow).length = 2 ∧
    (∀ g ∈ (DupResult.crossTable ⟨[],
        [⟨" b1 ", "L1", some 1, "UB", 2, [1, 2]⟩],
        [⟨"B1", "SL", some 1, "LB", "UB", 2, 2, [1], [1, 2]⟩]⟩),
      g.prsCount = g.mdmsCount ∧
      g.prsCount = ((crossPairs [fxP1] [fxM1U, fxM2U]).filter
        (fun pr => crossKey pr ==
          (g.coachCode, g.classCode, g.berthNumber, g.berthType,
           g.berthQualifier))).length ∧
      (1 < g.prsCount ∨ 1 < g.mdmsCount)) :=
  ⟨by decide, by decide,
   claim_C10_cross_counts_are_pair_counts [fxP1] [fxM1U, fxM2U]
     ⟨[], [⟨" b1 ", "L1", some 1, "UB", 2, [1, 2]⟩],
      [⟨"B1", "SL", some 1, "LB", "UB", 2, 2, [1], [1, 2]⟩]⟩ (by decide)⟩

/-! ## Claim C3 (amended) -/

/-- Sums of pointwise sums split. -/
theorem sum_map_add_nat (l : List α) (f g : α → Nat) :
    (l.map (fun a => f a + g a)).sum = (l.map f).sum + (l.map g).sum := by
  induction l with
  | nil => simp
  | cons a l ih =>
      simp only [List.map_cons, List.sum_cons, ih]
      omega

/-- The length of a filtered list as a sum of indicators. -/
theorem length_filter_eq_sum_ind (p : α → Bool) (l : List α) :
    (l.filter p).length = (l.map (fun a => if p a then 1 else 0)).sum := by
  induction l with
  | nil => simp
  | cons a l ih =>
      by_cases h : p a <;> simp [List.filter_cons, h, ih, Nat.add_comm]

/-- A sum of zeros vanishes. -/
theorem sum_map_zero_nat (l : List α) :
    (l.map (fun _ => (0 : Nat))).sum = 0 := by
  induction l <;> simp [*]

/-- A sum of ones is the length. -/
theorem sum_map_one_nat (l : List α) :
    (l.map (fun _ => (1 : Nat))).sum = l.length := by
  induction l <;> simp [*, Nat.add_comm]

/-- Counting matching pairs row-major equals counting them column-major. -/
theorem sum_filter_lengths_swap (l : List α) (l2 : List β)
    (q : α → β → Bool) :
    (l.map (fun a => (l2.filter (q a)).length)).sum =
    (l2.map (fun b => (l.filter (fun a => q a b)).length)).sum := by
  induction l with
  | nil =>
      simp only [List.map_nil, List.sum_nil, List.filter_nil,
        List.length_nil]
      exact (sum_map_zero_nat l2).symm
  | cons a l ih =>
      have hsplit : (fun b => ((a :: l).filter (fun x => q x b)).length) =
          fun b => (if q a b then 1 else 0) +
            (l.filter (fun x => q x b)).length := by
        funext b
        by_cases h : q a b <;> simp [List.filter_cons, h, Nat.add_comm]
      rw [List.map_cons, List.sum_cons, ih]
      conv_rhs => rw [hsplit]
      rw [sum_map_add_nat, ← length_filter_eq_sum_ind]

/-- Under pairwise-distinct keys, a filter whose predicate pins the key
keeps at most one element. -/
theorem filter_keyed_length_le_one {κ : Type} [DecidableEq κ]
    (key : α → κ) (l : List α)
    (hdist : (l.map key).Pairwise (· ≠ ·)) (p : α → Bool) (k : κ)
    (hp : ∀ a, p a = true → key a = k) : (l.filter p).length ≤ 1 := by
  induction l with
  | nil => simp
  | cons a l ih =>
      rw [List.map_cons, List.pairwise_cons] at hdist
      by_cases hpa : p a
      · rw [List.filter_cons_of_pos hpa]
        have hnil : l.filter p = [] := by
          rw [List.filter_eq_nil_iff]
          intro b hb hpb
          exact hdist.1 (key b) (List.mem_map.mpr ⟨b, hb, rfl⟩)
            (by rw [hp a hpa, hp b hpb])
        simp [hnil]
      · rw [List.filter_cons_of_neg hpa]
        exact ih hdist.2

/-- A successful join match pins the MDMS join key to the PRS one. -/
theorem rowMatches_key_eq (p : PrsRow) (m : MdmsRow)
    (h : rowMatches p m = true) : mdmsJoinKey m = prsJoinKey p := by
  unfold rowMatches at h
  rw [Bool.and_eq_true, Bool.and_eq_true] at h
  obtain ⟨⟨h1, h2⟩, h3⟩ := h
  cases hb : p.berth_number with
  | none => rw [hb] at h3; cases h3
  | some a =>
      cases hm : m.berth_no with
      | none => rw [hb, hm] at h3; cases h3
      | some b =>
          rw [hb, hm] at h3
          have hab : a = b := by exact_mod_cast beq_iff_eq.mp h3
          unfold mdmsJoinKey prsJoinKey
          rw [hm, hb, hab, (beq_iff_eq.mp h1), (beq_iff_eq.mp h2)]

/-- C3, amended: the claimed bounds hold when the join keys on the inner
side of each lookup are pairwise distinct (one row then matches at most one
partner).  When a side contains several rows with one join key the
inner-join typeMismatch partition counts every pair and the bound fails
(see the counterexample). -/
theorem claim_C3_counts_bounded_distinct_keys (prs : List PrsRow)
    (mdms : List MdmsRow) (r : DiscResult)
    (h : findDiscrepancies prs mdms = .ok r) :
    ((mdms.map mdmsJoinKey).Pairwise (· ≠ ·) →
      r.typeMismatchCount + r.missingInMdmsCount ≤ prs.length) ∧
    ((prs.map prsJoinKey).Pairwise (· ≠ ·) →
      r.typeMismatchCount + r.missingInPrsCount ≤ mdms.length) := by
  obtain rfl := findDiscrepancies_ok prs mdms r h
  have htm : (typeMismatchRowsOf prs mdms).length =
      (prs.map (fun p => (mdms.filter (fun m =>
        rowMatches p m && !(p.berth_type == m.berth_qualifier))).length)).sum := by
    unfold typeMismatchRowsOf
    rw [List.length_flatMap]
    have hcomp : (List.length ∘ fun p => List.map (mkTypeMismatch p)
        (List.filter (fun m => rowMatches p m &&
          !(p.berth_type == m.berth_qualifier)) mdms)) =
        fun p => (List.filter (fun m => rowMatches p m &&
          !(p.berth_type == m.berth_qualifier)) mdms).length := by
      funext p
      simp [Function.comp, List.length_map]
    rw [hcomp]
  have hmm : (missingInMdmsRowsOf prs mdms).length =
      (prs.filter (fun p => !(mdms.any (fun m => rowMatches p m)))).length := by
    unfold missingInMdmsRowsOf
    rw [List.length_map]
  have hmp : (missingInPrsRowsOf prs mdms).length =
      (mdms.filter (fun m => !(prs.any (fun p => rowMatches p m)))).length := by
    unfold missingInPrsRowsOf
    rw [List.length_map]
  constructor
  · intro hdist
    show (typeMismatchRowsOf prs mdms).length +
      (missingInMdmsRowsOf prs mdms).length ≤ prs.length
    rw [htm, hmm, length_filter_eq_sum_ind, ← sum_map_add_nat]
    calc (prs.map (fun p =>
            (mdms.filter (fun m => rowMatches p m &&
              !(p.berth_type == m.berth_qualifier))).length +
            (if !(mdms.any (fun m => rowMatches p m)) then 1 else 0))).sum
        ≤ (prs.map (fun _ => 1)).sum := by
          refine List.sum_le_sum (fun p _ => ?_)
          by_cases hany : mdms.any (fun m => rowMatches p m)
          · simp only [hany, Bool.not_true, if_false, add_zero]
            refine le_trans (filter_and_sublist _ _ _).length_le ?_
            exact filter_keyed_length_le_one mdmsJoinKey mdms hdist _
              (prsJoinKey p) (fun m hm => rowMatches_key_eq p m hm)
          · have hnone : mdms.filter (fun m => rowMatches p m &&
                !(p.berth_type == m.berth_qualifier)) = [] := by
              rw [List.filter_eq_nil_iff]
              intro m hm hq
              rw [Bool.and_eq_true] at hq
              exact hany (List.any_eq_true.mpr ⟨m, hm, hq.1⟩)
            rw [eq_false_of_ne_true hany]
            simp [hnone]
      _ = prs.length := sum_map_one_nat prs
  · intro hdist
    show (typeMismatchRowsOf prs mdms).length +
      (missingInPrsRowsOf prs mdms).length ≤ mdms.length
    rw [htm, hmp, sum_filter_lengths_swap, length_filter_eq_sum_ind,
      ← sum_map_add_nat]
    calc (mdms.map (fun m =>
            (prs.filter (fun p => rowMatches p m &&
              !(p.berth_type == m.berth_qualifier))).length +
            (if !(prs.any (fun p => rowMatches p m)) then 1 else 0))).sum
        ≤ (mdms.map (fun _ => 1)).sum := by
          refine List.sum_le_sum (fun m _ => ?_)
          by_cases hany : prs.any (fun p => rowMatches p m)
          · simp only [hany, Bool.not_true, if_false, add_zero]
            refine le_trans (filter_and_sublist _ _ _).length_le ?_
            exact filter_keyed_length_le_one prsJoinKey prs hdist _
              (mdmsJoinKey m) (fun p hp => (rowMatches_key_eq p m hp).symm)
          · have hnone : prs.filter (fun p => rowMatches p m &&
                !(p.berth_type == m.berth_qualifier)) = [] := by
              rw [List.filter_eq_nil_iff]
              intro p hp hq
              rw [Bool.and_eq_true] at hq
              exact hany (List.any_eq_true.mpr ⟨p, hp, hq.1⟩)
            rw [eq_false_of_ne_true hany]
            simp [hnone]
      _ = mdms.length := sum_map_one_nat mdms

/-- C3, witness for the amended theorem: two PRS rows with distinct keys
against one MDMS row with a distinct key. -/
theorem claim_C3_counts_bounded_witness :
    (([fxM1] : List MdmsRow).map mdmsJoinKey).Pairwise (· ≠ ·) ∧
    (([fxP1, fxPA1] : List PrsRow).map prsJoinKey).Pairwise (· ≠ ·) ∧
    (DiscResult.typeMismatchCount ⟨[], [mkMissingInMdms fxPA1], []⟩ +
      DiscResult.missingInMdmsCount ⟨[], [mkMissingInMdms fxPA1], []⟩ ≤
      ([fxP1, fxPA1] : List PrsRow).length) ∧
    (DiscResult.typeMismatchCount ⟨[], [mkMissingInMdms fxPA1], []⟩ +
      DiscResult.missingInPrsCount ⟨[], [mkMissingInMdms fxPA1], []⟩ ≤
      ([fxM1] : List MdmsRow).length) :=
  ⟨by decide, by decide,
   (claim_C3_counts_bounded_distinct_keys [fxP1, fxPA1] [fxM1]
     ⟨[], [mkMissingInMdms fxPA1], []⟩ (by decide)).1 (by decide),
   (claim_C3_counts_bounded_distinct_keys [fxP1, fxPA1] [fxM1]
     ⟨[], [mkMissingInMdms fxPA1], []⟩ (by decide)).2 (by decide)⟩
